import Mathlib

/-!
Shallow embedding of the CryptoNews Python SDK client
(src/sdk/python/crypto_news.py): its data model, the shared request
primitive `_request` and the public read operations, together with
theorems checking the claims of the specification about the request/response
contract and the error taxonomy.

HTTP responses are modelled explicitly; json.loads is modelled by its
result (a parsed value, or a decode failure), and the Python int() builtin on a
string by a partial decimal parser, so that every branch of the source
is represented.
-/

/-- JSON values as produced by a successful json.loads call. Numbers are
modelled as integers, which covers every body appearing in the claims;
object fields model a Python dict, so keys are taken distinct. -/
inductive JVal where
  | null : JVal
  | bool (b : Bool) : JVal
  | num (n : Int) : JVal
  | str (s : String) : JVal
  | arr (elts : List JVal) : JVal
  | obj (fields : List (String × JVal)) : JVal

/-- Field lookup in a modelled dict (first match; keys are distinct). -/
def jlookup (k : String) : List (String × JVal) → Option JVal
  | [] => none
  | (k2, v) :: rest => if k2 == k then some v else jlookup k rest

/-- The Python exceptions that can escape a client call: the SDK
hierarchy (CryptoNewsError with subclasses PaymentRequiredError and
RateLimitError, crypto_news.py lines 28-44) plus the standard-library
exceptions the SDK lets propagate: ValueError from int(), JSONDecodeError
from json.loads, KeyError / TypeError from subscripting the decoded body,
and URLError from the transport. -/
inductive PyError where
  | cryptoNewsError (msg : String) : PyError
  | paymentRequiredError (msg : String) (payment_required : Option String) : PyError
  | rateLimitError (msg : String) (retry_after : Option Int) : PyError
  | valueError (arg : String) : PyError
  | jsonDecodeError : PyError
  | keyError (key : String) : PyError
  | typeError : PyError
  | urlError (msg : String) : PyError
deriving DecidableEq

/-- The Python classes of those exceptions, used to state which failure
conditions a caller can tell apart with isinstance / except clauses. -/
inductive ExnClass where
  | cryptoNewsError : ExnClass
  | paymentRequiredError : ExnClass
  | rateLimitError : ExnClass
  | valueError : ExnClass
  | jsonDecodeError : ExnClass
  | keyError : ExnClass
  | typeError : ExnClass
  | urlError : ExnClass
deriving DecidableEq

/-- The exact class of a raised exception value. -/
def PyError.classOf : PyError → ExnClass
  | .cryptoNewsError _ => .cryptoNewsError
  | .paymentRequiredError _ _ => .paymentRequiredError
  | .rateLimitError _ _ => .rateLimitError
  | .valueError _ => .valueError
  | .jsonDecodeError => .jsonDecodeError
  | .keyError _ => .keyError
  | .typeError => .typeError
  | .urlError _ => .urlError

/-- The Python subclass relation restricted to the classes in play:
PaymentRequiredError and RateLimitError extend CryptoNewsError
(crypto_news.py lines 33, 40), json.JSONDecodeError extends ValueError;
every class extends itself. An `except C` clause catches a raised value
whose class is a subclass of C. -/
def ExnClass.isSubclassOf : ExnClass → ExnClass → Bool
  | .paymentRequiredError, .cryptoNewsError => true
  | .rateLimitError, .cryptoNewsError => true
  | .jsonDecodeError, .valueError => true
  | a, b => a == b

/-- The class of the exception carried by a failed call result, if any. -/
def errClass : Except PyError JVal → Option ExnClass
  | .error e => some e.classOf
  | .ok _ => none

/-- Python truthiness of an optional string (None and the empty string
are falsy), as used by `if remaining and limit:`, `if self.api_key:`,
`if reset_at`, `if source:` and the other header / parameter guards. -/
def truthyStr : Option String → Bool
  | none => false
  | some s => s ≠ ""

/-- Value of a list of decimal digit characters; none when the list is
empty or holds a non-digit. -/
def decDigitsVal : List Char → Option Nat
  | [] => none
  | cs =>
    if cs.all (fun c => c.isDigit) then
      some (cs.foldl (fun a c => a * 10 + (c.toNat - 48)) 0)
    else none

/-- Drop leading whitespace characters. -/
def dropSpaces : List Char → List Char
  | [] => []
  | c :: cs => if c.isWhitespace then dropSpaces cs else c :: cs

/-- Strip whitespace from both ends, as Python int() does to its
argument. -/
def stripSpaces (cs : List Char) : List Char :=
  ((dropSpaces ((dropSpaces cs).reverse)).reverse)

/-- Models Python int(s) on a string: surrounding whitespace is ignored,
then an optional sign followed by decimal digits; none models a raised
ValueError. (Python additionally allows single underscores between
digits; no string considered here contains one.) -/
def pyInt (s : String) : Option Int :=
  match stripSpaces s.toList with
  | '+' :: cs => (decDigitsVal cs).map (fun n => (n : Int))
  | '-' :: cs => (decDigitsVal cs).map (fun n => -(n : Int))
  | cs => (decDigitsVal cs).map (fun n => (n : Int))

/-- The rate-limit snapshot dict built at crypto_news.py lines 105-109. -/
structure RateLimit where
  remaining : Int
  limit : Int
  reset_at : Option Int
deriving DecidableEq

/-- A response urllib.request.urlopen returns (a 2xx response): the three
rate-limit headers as the strings response.headers.get yields, and the
result of json.loads on the decoded body (none when the body is not valid
JSON and json.loads raises). -/
structure SuccessResponse where
  xRateLimitRemaining : Option String := none
  xRateLimitLimit : Option String := none
  xRateLimitReset : Option String := none
  bodyJson : Option JVal := none

/-- What one urlopen call can do: return a 2xx response, raise
urllib.error.HTTPError with a status code, reason text and the two error
headers the SDK reads, or raise a network-level URLError (timeout, DNS,
connection refused). -/
inductive TransportResult where
  | success (resp : SuccessResponse) : TransportResult
  | httpError (code : Nat) (reason : String)
      (xPaymentRequired : Option String) (xRateLimitReset : Option String) : TransportResult
  | urlError (msg : String) : TransportResult

/-- Evaluation of the dict literal at crypto_news.py lines 105-109, run
only when both remaining and limit are truthy: each int() conversion may
raise ValueError, and reset_at is converted only when truthy. -/
def buildRateLimit (remaining limit : String) (reset_at : Option String) :
    Except PyError RateLimit :=
  match pyInt remaining with
  | none => .error (.valueError remaining)
  | some r =>
    match pyInt limit with
    | none => .error (.valueError limit)
    | some l =>
      if truthyStr reset_at then
        match pyInt (reset_at.getD "") with
        | none => .error (.valueError (reset_at.getD ""))
        | some rv => .ok ⟨r, l, some rv⟩
      else .ok ⟨r, l, none⟩

/-- The body of CryptoNews._request after urlopen (crypto_news.py lines
98-123), as a function of the stored last_rate_limit and of what the
transport did: on a 2xx response it first updates the snapshot when both
remaining and limit are truthy, then returns the json.loads result; on
HTTPError it classifies 402, 429 and everything else; a URLError
propagates. Returns the new last_rate_limit and the returned value or
raised exception. -/
def requestCore (last : Option RateLimit) : TransportResult →
    Option RateLimit × Except PyError JVal
  | .success resp =>
    if truthyStr resp.xRateLimitRemaining && truthyStr resp.xRateLimitLimit then
      match buildRateLimit (resp.xRateLimitRemaining.getD "")
          (resp.xRateLimitLimit.getD "") resp.xRateLimitReset with
      | .error e => (last, .error e)
      | .ok rl =>
        match resp.bodyJson with
        | some v => (some rl, .ok v)
        | none => (some rl, .error .jsonDecodeError)
    else
      match resp.bodyJson with
      | some v => (last, .ok v)
      | none => (last, .error .jsonDecodeError)
  | .httpError code reason pr rs =>
    if code == 402 then
      (last, .error (.paymentRequiredError "Payment required" pr))
    else if code == 429 then
      if truthyStr rs then
        match pyInt (rs.getD "") with
        | some n => (last, .error (.rateLimitError "Rate limit exceeded" (some n)))
        | none => (last, .error (.valueError (rs.getD "")))
      else (last, .error (.rateLimitError "Rate limit exceeded" none))
    else
      (last, .error (.cryptoNewsError ("HTTP " ++ toString code ++ ": " ++ reason)))
  | .urlError msg => (last, .error (.urlError msg))

/-- The client object: configuration plus the single mutable
last_rate_limit field (crypto_news.py lines 52-69). -/
structure CryptoNews where
  base_url : String := "https://free-crypto-news.vercel.app"
  api_key : Option String := none
  timeout : Int := 30
  last_rate_limit : Option RateLimit := none
deriving DecidableEq

/-- The class constant BASE_URL. -/
def BASE_URL : String := "https://free-crypto-news.vercel.app"

/-- CryptoNews.__init__: base_url falls back to BASE_URL when the
argument is None or empty (`base_url or self.BASE_URL`), and
last_rate_limit starts as None. -/
def mkCryptoNews (base_url : Option String) (api_key : Option String)
    (timeout : Int) : CryptoNews :=
  { base_url := if truthyStr base_url then base_url.getD "" else BASE_URL
    api_key := api_key
    timeout := timeout
    last_rate_limit := none }

/-- CryptoNews.set_api_key. -/
def CryptoNews.set_api_key (c : CryptoNews) (api_key : String) : CryptoNews :=
  { c with api_key := some api_key }

/-- CryptoNews.get_rate_limit_info. -/
def CryptoNews.get_rate_limit_info (c : CryptoNews) : Option RateLimit :=
  c.last_rate_limit

/-- The headers CryptoNews._request attaches (crypto_news.py lines
83-94): Accept and User-Agent always, X-API-Key when the stored key is
truthy, X-PAYMENT when a payment token is supplied and truthy. -/
def headersFor (c : CryptoNews) (payment : Option String) : List (String × String) :=
  let base := [("Accept", "application/json"), ("User-Agent", "CryptoNewsSDK-Python/1.0")]
  let withKey :=
    match c.api_key with
    | some k => if k ≠ "" then base ++ [("X-API-Key", k)] else base
    | none => base
  match payment with
  | some p => if p ≠ "" then withKey ++ [("X-PAYMENT", p)] else withKey
  | none => withKey

/-- One outgoing request as the transport observes it. -/
structure Call where
  url : String
  headers : List (String × String)
deriving DecidableEq

/-- The request CryptoNews._request issues for an endpoint: full URL is
base_url ++ endpoint, with the headers above. -/
def mkCall (c : CryptoNews) (endpoint : String) (payment : Option String) : Call :=
  { url := c.base_url ++ endpoint, headers := headersFor c payment }

/-- CryptoNews._request against an abstract transport: issues exactly one
call and classifies the outcome with requestCore. Returns the list of
calls issued, the new last_rate_limit, and the returned body or raised
exception. -/
def CryptoNews.requestOp (c : CryptoNews) (endpoint : String)
    (payment : Option String) (transport : Call → TransportResult) :
    List Call × Option RateLimit × Except PyError JVal :=
  let call := mkCall c endpoint payment
  let step := requestCore c.last_rate_limit (transport call)
  ([call], step.1, step.2)

/-- Uppercase hexadecimal digit of a value below 16. -/
def hexDigit (n : Nat) : Char :=
  if n < 10 then Char.ofNat (48 + n) else Char.ofNat (55 + n)

/-- Bytes urllib.parse.quote leaves unescaped with its default safe set:
ASCII letters and digits, underscore, dot, hyphen, tilde, and slash. -/
def quoteSafeByte (b : Nat) : Bool :=
  (65 ≤ b && b ≤ 90) || (97 ≤ b && b ≤ 122) || (48 ≤ b && b ≤ 57) ||
    b == 95 || b == 46 || b == 45 || b == 126 || b == 47

/-- One byte as urllib.parse.quote renders it. -/
def quoteByte (b : Nat) : String :=
  if quoteSafeByte b then String.mk [Char.ofNat b]
  else String.mk ['%', hexDigit (b / 16), hexDigit (b % 16)]

/-- The UTF-8 bytes of one character, as byte values. -/
def utf8Bytes (c : Char) : List Nat :=
  let n := c.toNat
  if n < 128 then [n]
  else if n < 2048 then [192 + n / 64, 128 + n % 64]
  else if n < 65536 then
    [224 + n / 4096, 128 + (n / 64) % 64, 128 + n % 64]
  else
    [240 + n / 262144, 128 + (n / 4096) % 64, 128 + (n / 64) % 64, 128 + n % 64]

/-- Models urllib.parse.quote with its defaults: each unsafe byte of the
UTF-8 encoding of the string is percent-encoded with uppercase hex. -/
def quote (s : String) : String :=
  String.join (s.toList.map (fun c => String.join ((utf8Bytes c).map quoteByte)))

/-- str(b).lower() for a Python bool (the prices query parameter). -/
def pyBoolStr (b : Bool) : String := if b then "true" else "false"

/-- Python subscripting of a decoded JSON body with a string key, as in
the source pattern request(endpoint) followed by indexing with a field name: a
missing key raises KeyError and a non-dict value raises TypeError. -/
def getItem (v : JVal) (k : String) : Except PyError JVal :=
  match v with
  | .obj fields =>
    match jlookup k fields with
    | some x => .ok x
    | none => .error (.keyError k)
  | _ => .error .typeError

/-- Envelope projection applied to the result of a request. -/
def withField (r : List Call × Option RateLimit × Except PyError JVal)
    (k : String) : List Call × Option RateLimit × Except PyError JVal :=
  (r.1, r.2.1, r.2.2.bind (fun v => getItem v k))

/-- The endpoint get_latest builds (crypto_news.py lines 136-138). -/
def endpoint_get_latest (limit : Int) (source : Option String) : String :=
  "/api/news?limit=" ++ toString limit ++
    (if truthyStr source then "&source=" ++ source.getD "" else "")

/-- The endpoint search builds (lines 152-153): keywords are
percent-encoded. -/
def endpoint_search (keywords : String) (limit : Int) : String :=
  "/api/search?q=" ++ quote keywords ++ "&limit=" ++ toString limit

/-- The endpoint get_defi builds (line 157). -/
def endpoint_get_defi (limit : Int) : String :=
  "/api/defi?limit=" ++ toString limit

/-- The endpoint get_bitcoin builds (line 161). -/
def endpoint_get_bitcoin (limit : Int) : String :=
  "/api/bitcoin?limit=" ++ toString limit

/-- The endpoint get_breaking builds (line 165). -/
def endpoint_get_breaking (limit : Int) : String :=
  "/api/breaking?limit=" ++ toString limit

/-- The endpoint get_trending builds (line 173). -/
def endpoint_get_trending (limit hours : Int) : String :=
  "/api/trending?limit=" ++ toString limit ++ "&hours=" ++ toString hours

/-- The endpoint analyze builds (lines 185-189): the topic is
percent-encoded, the sentiment filter is not. -/
def endpoint_analyze (limit : Int) (topic sentiment : Option String) : String :=
  "/api/analyze?limit=" ++ toString limit ++
    (if truthyStr topic then "&topic=" ++ quote (topic.getD "") else "") ++
    (if truthyStr sentiment then "&sentiment=" ++ sentiment.getD "" else "")

/-- The endpoint get_archive builds (lines 194-199): a parameter list
joined with ampersands; the free-text query is percent-encoded. -/
def endpoint_get_archive (date query : Option String) (limit : Int) : String :=
  "/api/archive?" ++ String.intercalate "&"
    (["limit=" ++ toString limit] ++
      (if truthyStr date then ["date=" ++ date.getD ""] else []) ++
      (if truthyStr query then ["q=" ++ quote (query.getD "")] else []))

/-- The endpoint get_origins builds (lines 203-208). -/
def endpoint_get_origins (query category : Option String) (limit : Int) : String :=
  "/api/origins?" ++ String.intercalate "&"
    (["limit=" ++ toString limit] ++
      (if truthyStr query then ["q=" ++ quote (query.getD "")] else []) ++
      (if truthyStr category then ["category=" ++ category.getD ""] else []))

/-- The endpoint get_portfolio builds (lines 212-213): the coin list is
comma-joined and then percent-encoded, prices renders a Python bool. -/
def endpoint_get_portfolio (coins : List String) (limit : Int)
    (include_prices : Bool) : String :=
  "/api/portfolio?coins=" ++ quote (String.intercalate "," coins) ++
    "&limit=" ++ toString limit ++ "&prices=" ++ pyBoolStr include_prices

/-- The endpoint get_premium_coin builds (line 238): the coin id is
interpolated into the path unencoded. -/
def endpoint_get_premium_coin (coin_id : String) : String :=
  "/api/v1/coins/" ++ coin_id

/-- The endpoint get_premium_coins builds (lines 258-261): the optional
ids parameter is percent-encoded. -/
def endpoint_get_premium_coins (page per_page : Int) (order : String)
    (ids : Option String) : String :=
  "/api/v1/coins?" ++ String.intercalate "&"
    (["page=" ++ toString page, "per_page=" ++ toString per_page,
        "order=" ++ order] ++
      (if truthyStr ids then ["ids=" ++ quote (ids.getD "")] else []))

/-- The endpoint get_historical builds (line 277). -/
def endpoint_get_historical (coin_id : String) (days : Int) : String :=
  "/api/v1/historical/" ++ coin_id ++ "?days=" ++ toString days

/-- The endpoint export_data builds (line 296). -/
def endpoint_export_data (coin_id format : String) (days : Int) : String :=
  "/api/v1/export?coin=" ++ coin_id ++ "&format=" ++ format ++
    "&days=" ++ toString days

/-- CryptoNews.get_latest (lines 125-139): requests the news endpoint
and projects the body to its articles envelope field. -/
def CryptoNews.get_latest (c : CryptoNews) (limit : Int) (source : Option String)
    (transport : Call → TransportResult) :
    List Call × Option RateLimit × Except PyError JVal :=
  withField (c.requestOp (endpoint_get_latest limit source) none transport) "articles"

/-- CryptoNews.search (lines 141-153). -/
def CryptoNews.search (c : CryptoNews) (keywords : String) (limit : Int)
    (transport : Call → TransportResult) :
    List Call × Option RateLimit × Except PyError JVal :=
  withField (c.requestOp (endpoint_search keywords limit) none transport) "articles"

/-- CryptoNews.get_defi (lines 155-157). -/
def CryptoNews.get_defi (c : CryptoNews) (limit : Int)
    (transport : Call → TransportResult) :
    List Call × Option RateLimit × Except PyError JVal :=
  withField (c.requestOp (endpoint_get_defi limit) none transport) "articles"

/-- CryptoNews.get_bitcoin (lines 159-161). -/
def CryptoNews.get_bitcoin (c : CryptoNews) (limit : Int)
    (transport : Call → TransportResult) :
    List Call × Option RateLimit × Except PyError JVal :=
  withField (c.requestOp (endpoint_get_bitcoin limit) none transport) "articles"

/-- CryptoNews.get_breaking (lines 163-165). -/
def CryptoNews.get_breaking (c : CryptoNews) (limit : Int)
    (transport : Call → TransportResult) :
    List Call × Option RateLimit × Except PyError JVal :=
  withField (c.requestOp (endpoint_get_breaking limit) none transport) "articles"

/-- CryptoNews.get_sources (lines 167-169): projects to the sources
envelope field. -/
def CryptoNews.get_sources (c : CryptoNews)
    (transport : Call → TransportResult) :
    List Call × Option RateLimit × Except PyError JVal :=
  withField (c.requestOp "/api/sources" none transport) "sources"

/-- CryptoNews.get_trending (lines 171-173): returns the full body. -/
def CryptoNews.get_trending (c : CryptoNews) (limit hours : Int)
    (transport : Call → TransportResult) :
    List Call × Option RateLimit × Except PyError JVal :=
  c.requestOp (endpoint_get_trending limit hours) none transport

/-- CryptoNews.get_stats (lines 175-177). -/
def CryptoNews.get_stats (c : CryptoNews)
    (transport : Call → TransportResult) :
    List Call × Option RateLimit × Except PyError JVal :=
  c.requestOp "/api/stats" none transport

/-- CryptoNews.get_health (lines 179-181). -/
def CryptoNews.get_health (c : CryptoNews)
    (transport : Call → TransportResult) :
    List Call × Option RateLimit × Except PyError JVal :=
  c.requestOp "/api/health" none transport

/-- CryptoNews.analyze (lines 183-190). -/
def CryptoNews.analyze (c : CryptoNews) (limit : Int)
    (topic sentiment : Option String) (transport : Call → TransportResult) :
    List Call × Option RateLimit × Except PyError JVal :=
  c.requestOp (endpoint_analyze limit topic sentiment) none transport

/-- CryptoNews.get_archive (lines 192-199). -/
def CryptoNews.get_archive (c : CryptoNews) (date query : Option String)
    (limit : Int) (transport : Call → TransportResult) :
    List Call × Option RateLimit × Except PyError JVal :=
  c.requestOp (endpoint_get_archive date query limit) none transport

/-- CryptoNews.get_origins (lines 201-208). -/
def CryptoNews.get_origins (c : CryptoNews) (query category : Option String)
    (limit : Int) (transport : Call → TransportResult) :
    List Call × Option RateLimit × Except PyError JVal :=
  c.requestOp (endpoint_get_origins query category limit) none transport

/-- CryptoNews.get_portfolio (lines 210-213). -/
def CryptoNews.get_portfolio (c : CryptoNews) (coins : List String)
    (limit : Int) (include_prices : Bool) (transport : Call → TransportResult) :
    List Call × Option RateLimit × Except PyError JVal :=
  c.requestOp (endpoint_get_portfolio coins limit include_prices) none transport

/-- CryptoNews.get_usage (lines 219-228): raises
CryptoNewsError before touching the transport when the stored key is not
truthy, otherwise requests the usage endpoint. -/
def CryptoNews.get_usage (c : CryptoNews)
    (transport : Call → TransportResult) :
    List Call × Option RateLimit × Except PyError JVal :=
  if truthyStr c.api_key then
    c.requestOp "/api/v1/usage" none transport
  else
    ([], c.last_rate_limit,
      .error (.cryptoNewsError "API key required. Call set_api_key() first."))

/-- CryptoNews.get_premium_coin (lines 230-238). -/
def CryptoNews.get_premium_coin (c : CryptoNews) (coin_id : String)
    (payment : Option String) (transport : Call → TransportResult) :
    List Call × Option RateLimit × Except PyError JVal :=
  c.requestOp (endpoint_get_premium_coin coin_id) payment transport

/-- CryptoNews.get_premium_coins (lines 240-261). -/
def CryptoNews.get_premium_coins (c : CryptoNews) (page per_page : Int)
    (order : String) (ids : Option String) (payment : Option String)
    (transport : Call → TransportResult) :
    List Call × Option RateLimit × Except PyError JVal :=
  c.requestOp (endpoint_get_premium_coins page per_page order ids) payment transport

/-- CryptoNews.get_historical (lines 263-277). -/
def CryptoNews.get_historical (c : CryptoNews) (coin_id : String) (days : Int)
    (payment : Option String) (transport : Call → TransportResult) :
    List Call × Option RateLimit × Except PyError JVal :=
  c.requestOp (endpoint_get_historical coin_id days) payment transport

/-- CryptoNews.export_data (lines 279-298). -/
def CryptoNews.export_data (c : CryptoNews) (coin_id format : String)
    (days : Int) (payment : Option String) (transport : Call → TransportResult) :
    List Call × Option RateLimit × Except PyError JVal :=
  c.requestOp (endpoint_export_data coin_id format days) payment transport

/-- True when the call raised instead of returning a value. -/
def isRaised : Except PyError JVal → Bool
  | .error _ => true
  | .ok _ => false

/-- Modelled from the spec, section 6: template `/api/news?limit=&source=`
with both parameters supplied; neither is listed as free text, so neither
is percent-encoded. -/
def specTemplate_news (limit : Int) (source : String) : String :=
  "/api/news?limit=" ++ toString limit ++ "&source=" ++ source

/-- Modelled from the spec, section 6: template `/api/search?q=&limit=`;
the search keywords are free text and percent-encoded. -/
def specTemplate_search (q : String) (limit : Int) : String :=
  "/api/search?q=" ++ quote q ++ "&limit=" ++ toString limit

/-- Modelled from the spec, section 6: `/api/defi` with `limit=`. -/
def specTemplate_defi (limit : Int) : String :=
  "/api/defi?limit=" ++ toString limit

/-- Modelled from the spec, section 6: `/api/bitcoin` with `limit=`. -/
def specTemplate_bitcoin (limit : Int) : String :=
  "/api/bitcoin?limit=" ++ toString limit

/-- Modelled from the spec, section 6: `/api/breaking` with `limit=`. -/
def specTemplate_breaking (limit : Int) : String :=
  "/api/breaking?limit=" ++ toString limit

/-- Modelled from the spec, section 6: template `/api/trending?limit=&hours=`. -/
def specTemplate_trending (limit hours : Int) : String :=
  "/api/trending?limit=" ++ toString limit ++ "&hours=" ++ toString hours

/-- Modelled from the spec, section 6: template
`/api/analyze?limit=&topic=&sentiment=`; the topic filter is free text
and percent-encoded, the sentiment filter is not. -/
def specTemplate_analyze (limit : Int) (topic sentiment : String) : String :=
  "/api/analyze?limit=" ++ toString limit ++ "&topic=" ++ quote topic ++
    "&sentiment=" ++ sentiment

/-- Modelled from the spec, section 6: template `/api/archive?limit=&date=&q=`;
the query string is free text and percent-encoded. -/
def specTemplate_archive (limit : Int) (date q : String) : String :=
  "/api/archive?limit=" ++ toString limit ++ "&date=" ++ date ++ "&q=" ++ quote q

/-- Modelled from the spec, section 6: template
`/api/origins?limit=&q=&category=`; the query string is free text and
percent-encoded. -/
def specTemplate_origins (limit : Int) (q category : String) : String :=
  "/api/origins?limit=" ++ toString limit ++ "&q=" ++ quote q ++
    "&category=" ++ category

/-- Modelled from the spec, section 6: template
`/api/portfolio?coins=&limit=&prices=`; coins is comma-joined then
percent-encoded. -/
def specTemplate_portfolio (coins : List String) (limit : Int)
    (prices : Bool) : String :=
  "/api/portfolio?coins=" ++ quote (String.intercalate "," coins) ++
    "&limit=" ++ toString limit ++ "&prices=" ++ pyBoolStr prices

/-- Modelled from the spec, section 6: premium coin path with the coin id
interpolated. -/
def specTemplate_premium_coin (coin_id : String) : String :=
  "/api/v1/coins/" ++ coin_id

/-- Modelled from the spec, section 6: template
`/api/v1/coins?page=&per_page=&order=&ids=`; the premium ids parameter is
free text and percent-encoded. -/
def specTemplate_premium_coins (page per_page : Int) (order ids : String) : String :=
  "/api/v1/coins?page=" ++ toString page ++ "&per_page=" ++ toString per_page ++
    "&order=" ++ order ++ "&ids=" ++ quote ids

/-- Modelled from the spec, section 6: premium historical path with `days=`. -/
def specTemplate_historical (coin_id : String) (days : Int) : String :=
  "/api/v1/historical/" ++ coin_id ++ "?days=" ++ toString days

/-- Modelled from the spec, section 6: template
`/api/v1/export?coin=&format=&days=`. -/
def specTemplate_export (coin format : String) (days : Int) : String :=
  "/api/v1/export?coin=" ++ coin ++ "&format=" ++ format ++
    "&days=" ++ toString days

theorem str_append_assoc (a b c : String) : (a ++ b) ++ c = a ++ (b ++ c) :=
  congrArg String.mk (List.append_assoc a.data b.data c.data)

theorem buildRateLimit_error_class (remaining limit : String)
    (reset_at : Option String) (e : PyError)
    (h : buildRateLimit remaining limit reset_at = .error e) :
    e.classOf = ExnClass.valueError := by
  unfold buildRateLimit at h
  repeat' split at h
  all_goals first
    | exact Except.noConfusion h
    | (injection h with h1; rw [← h1]; rfl)

theorem requestCore_httpError_fst (last : Option RateLimit) (code : Nat)
    (reason : String) (pr rs : Option String) :
    (requestCore last (.httpError code reason pr rs)).1 = last := by
  simp only [requestCore]
  repeat' split
  all_goals rfl

/-- C1: for every request that receives an HTTP 402 response, the client
raises PaymentRequiredError with message Payment required, carrying as
payment_required exactly the raw X-PAYMENT-REQUIRED header string of the
response (still base64-encoded), or None when the response has no such
header; no other outcome is possible on 402. -/
theorem c1_payment_required_on_402 (c : CryptoNews) (endpoint : String)
    (payment : Option String) (transport : Call → TransportResult)
    (reason : String) (pr rs : Option String)
    (h : transport (mkCall c endpoint payment) = .httpError 402 reason pr rs) :
    (c.requestOp endpoint payment transport).2.2 =
      .error (.paymentRequiredError "Payment required" pr) := by
  simp [CryptoNews.requestOp, h, requestCore]

/-- Witness for C1: a concrete 402 response whose X-PAYMENT-REQUIRED
header is a base64 string; the raised error carries it unmodified. -/
theorem c1_witness :
    ((mkCryptoNews none none 30).requestOp "/api/v1/coins/bitcoin" none
        (fun _ => .httpError 402 "Payment Required" (some "eyJhY2NlcHRzIjpbXX0=") none)).2.2 =
      .error (.paymentRequiredError "Payment required" (some "eyJhY2NlcHRzIjpbXX0=")) :=
  c1_payment_required_on_402 _ _ _ _ _ _ _ rfl

/-- C2 counterexample: a 200 response on which both rate-limit headers
are present, X-RateLimit-Remaining with an empty value, yet the stored
snapshot is not updated: the source gates the update on Python
truthiness of the header values, not on their presence. -/
theorem c2_counterexample :
    (requestCore none (.success
        { xRateLimitRemaining := some "", xRateLimitLimit := some "10",
          bodyJson := some (.obj []) })).1 = none ∧
    (some "" : Option String).isSome = true ∧
    (some "10" : Option String).isSome = true :=
  ⟨rfl, rfl, rfl⟩

/-- C2 amended: on a 2xx response the snapshot is updated iff both
rate-limit headers are present with non-empty values and every int()
conversion succeeds, in which case it becomes exactly the parsed
remaining / limit / reset_at triple (reset_at None when the reset header
is absent or empty); otherwise, including on conversion failure, it is
left unchanged, and a fresh client reports no snapshot. -/
theorem c2_snapshot_update (last : Option RateLimit) (resp : SuccessResponse)
    (base key : Option String) (t : Int) :
    (truthyStr resp.xRateLimitRemaining = false ∨
        truthyStr resp.xRateLimitLimit = false →
      (requestCore last (.success resp)).1 = last) ∧
    (∀ rl : RateLimit, truthyStr resp.xRateLimitRemaining = true →
      truthyStr resp.xRateLimitLimit = true →
      buildRateLimit (resp.xRateLimitRemaining.getD "")
          (resp.xRateLimitLimit.getD "") resp.xRateLimitReset = .ok rl →
      (requestCore last (.success resp)).1 = some rl) ∧
    (∀ e : PyError, truthyStr resp.xRateLimitRemaining = true →
      truthyStr resp.xRateLimitLimit = true →
      buildRateLimit (resp.xRateLimitRemaining.getD "")
          (resp.xRateLimitLimit.getD "") resp.xRateLimitReset = .error e →
      (requestCore last (.success resp)).1 = last) ∧
    (mkCryptoNews base key t).get_rate_limit_info = none := by
  refine ⟨?_, ?_, ?_, rfl⟩
  · intro h
    rcases h with h | h <;>
      · simp only [requestCore, h, Bool.false_and, Bool.and_false, if_false,
          Bool.false_eq_true, ite_false]
        cases resp.bodyJson <;> rfl
  · intro rl h1 h2 h3
    simp only [requestCore, h1, h2, h3, Bool.and_self, if_true]
    cases resp.bodyJson <;> rfl
  · intro e h1 h2 h3
    simp only [requestCore, h1, h2, h3, Bool.and_self, if_true]

/-- Witness for C2: headers remaining 5 and limit 10 with no reset
header yield the snapshot remaining 5, limit 10, reset_at None. -/
theorem c2_witness :
    (requestCore none (.success ⟨some "5", some "10", none, some (.obj [])⟩)).1 =
      some { remaining := 5, limit := 10, reset_at := none } :=
  (c2_snapshot_update none ⟨some "5", some "10", none, some (.obj [])⟩
      none none 30).2.1
    { remaining := 5, limit := 10, reset_at := none } rfl rfl rfl

/-- C3 counterexample: a 429 response whose X-RateLimit-Reset header is
present but not an integer makes int() raise, so the client fails with
ValueError, not with RateLimitError. -/
theorem c3_counterexample :
    (requestCore none (.httpError 429 "Too Many Requests" none (some "soon"))).2 =
      .error (.valueError "soon") := rfl

/-- C3 amended: on HTTP 429 the client raises RateLimitError carrying
the reset header parsed as an integer when that header is present,
non-empty and parseable; it carries None when the header is absent or
empty; and a present non-empty unparseable header makes the call fail
with ValueError instead. -/
theorem c3_rate_limit_on_429 (last : Option RateLimit) (reason : String)
    (pr : Option String) :
    (requestCore last (.httpError 429 reason pr none)).2 =
      .error (.rateLimitError "Rate limit exceeded" none) ∧
    (requestCore last (.httpError 429 reason pr (some ""))).2 =
      .error (.rateLimitError "Rate limit exceeded" none) ∧
    (∀ s n, pyInt s = some n → s ≠ "" →
      (requestCore last (.httpError 429 reason pr (some s))).2 =
        .error (.rateLimitError "Rate limit exceeded" (some n))) ∧
    (∀ s, pyInt s = none → s ≠ "" →
      (requestCore last (.httpError 429 reason pr (some s))).2 =
        .error (.valueError s)) := by
  refine ⟨rfl, rfl, ?_, ?_⟩
  · intro s n hp hs
    simp [requestCore, truthyStr, hs, hp]
  · intro s hp hs
    simp [requestCore, truthyStr, hs, hp]

/-- Witness for C3: reset header 1700000000 is carried as the integer
1700000000 on the raised RateLimitError. -/
theorem c3_witness :
    (requestCore none (.httpError 429 "Too Many Requests" none
        (some "1700000000"))).2 =
      .error (.rateLimitError "Rate limit exceeded" (some 1700000000)) :=
  (c3_rate_limit_on_429 none "Too Many Requests" none).2.2.1
    "1700000000" 1700000000 rfl (by decide)

/-- C4 counterexample: the error get_usage raises without an API key has
exactly the same Python class (the base CryptoNewsError) as the generic
ApiError condition raised for an HTTP 500 response, so it is not a
condition distinct from ApiError. -/
theorem c4_counterexample :
    errClass ((mkCryptoNews none none 30).get_usage
        (fun _ => .httpError 500 "Internal Server Error" none none)).2.2 =
      some ExnClass.cryptoNewsError ∧
    errClass (requestCore none
        (.httpError 500 "Internal Server Error" none none)).2 =
      some ExnClass.cryptoNewsError :=
  ⟨rfl, rfl⟩

/-- C4 amended: with no truthy API key, get_usage raises CryptoNewsError
with the key-required message while issuing zero transport calls and
leaving the snapshot unchanged; that condition is distinct by class from
PaymentRequiredError, RateLimitError and the transport-level failures,
but it shares its exception class with the generic ApiError condition. -/
theorem c4_usage_without_key (c : CryptoNews)
    (transport : Call → TransportResult) (h : truthyStr c.api_key = false) :
    c.get_usage transport =
      ([], c.last_rate_limit,
        .error (.cryptoNewsError "API key required. Call set_api_key() first.")) ∧
    (PyError.cryptoNewsError "API key required. Call set_api_key() first.").classOf ≠
      ExnClass.paymentRequiredError ∧
    (PyError.cryptoNewsError "API key required. Call set_api_key() first.").classOf ≠
      ExnClass.rateLimitError ∧
    (PyError.cryptoNewsError "API key required. Call set_api_key() first.").classOf ≠
      ExnClass.urlError ∧
    (PyError.cryptoNewsError "API key required. Call set_api_key() first.").classOf ≠
      ExnClass.jsonDecodeError ∧
    (PyError.cryptoNewsError "API key required. Call set_api_key() first.").classOf =
      (PyError.cryptoNewsError ("HTTP " ++ toString 500 ++ ": Internal Server Error")).classOf := by
  refine ⟨?_, by decide, by decide, by decide, by decide, rfl⟩
  simp [CryptoNews.get_usage, h]

/-- Witness for C4: a keyless client, a transport that would fail if
invoked; get_usage returns no call at all and the key-required error. -/
theorem c4_witness :
    (mkCryptoNews none none 30).get_usage (fun _ => .urlError "unused") =
      ([], none,
        .error (.cryptoNewsError "API key required. Call set_api_key() first.")) :=
  (c4_usage_without_key (mkCryptoNews none none 30)
      (fun _ => .urlError "unused") rfl).1

/-- C5 counterexample: the class of the generic ApiError condition for an
HTTP 503 response equals the class of the configuration-error condition
get_usage raises without a key, so the generic condition is not
distinguishable from every other condition of the taxonomy. -/
theorem c5_counterexample :
    errClass (requestCore none
        (.httpError 503 "Service Unavailable" none none)).2 =
      errClass ((mkCryptoNews none none 30).get_usage
        (fun _ => .urlError "unused")).2.2 ∧
    errClass (requestCore none
        (.httpError 503 "Service Unavailable" none none)).2 =
      some ExnClass.cryptoNewsError :=
  ⟨rfl, rfl⟩

/-- C5 amended: every non-2xx status other than 402 and 429 raises the
base CryptoNewsError whose message carries the numeric status code and
the reason text; the condition is catchable via the SDK base class, is
not caught by the PaymentRequiredError or RateLimitError handlers and is
distinct by class from the transport-level failures, though it shares
its class with the configuration-error condition of get_usage. -/
theorem c5_generic_api_error (last : Option RateLimit) (code : Nat)
    (reason : String) (pr rs : Option String)
    (h402 : code ≠ 402) (h429 : code ≠ 429) :
    (requestCore last (.httpError code reason pr rs)).2 =
      .error (.cryptoNewsError ("HTTP " ++ toString code ++ ": " ++ reason)) ∧
    ExnClass.isSubclassOf
      (PyError.cryptoNewsError ("HTTP " ++ toString code ++ ": " ++ reason)).classOf
      ExnClass.cryptoNewsError = true ∧
    ExnClass.isSubclassOf
      (PyError.cryptoNewsError ("HTTP " ++ toString code ++ ": " ++ reason)).classOf
      ExnClass.paymentRequiredError = false ∧
    ExnClass.isSubclassOf
      (PyError.cryptoNewsError ("HTTP " ++ toString code ++ ": " ++ reason)).classOf
      ExnClass.rateLimitError = false ∧
    (PyError.cryptoNewsError ("HTTP " ++ toString code ++ ": " ++ reason)).classOf ≠
      ExnClass.urlError ∧
    (PyError.cryptoNewsError ("HTTP " ++ toString code ++ ": " ++ reason)).classOf ≠
      ExnClass.jsonDecodeError := by
  refine ⟨?_, rfl, rfl, rfl, fun hcon => ExnClass.noConfusion hcon,
    fun hcon => ExnClass.noConfusion hcon⟩
  have h1 : (code == 402) = false := by simp [h402]
  have h2 : (code == 429) = false := by simp [h429]
  simp [requestCore, h1, h2]

/-- Witness for C5: the HTTP 500 condition carries code and reason in
its message and is not caught by the PaymentRequiredError handler. -/
theorem c5_witness :
    (requestCore none (.httpError 500 "Internal Server Error" none none)).2 =
      .error (.cryptoNewsError "HTTP 500: Internal Server Error") ∧
    ExnClass.isSubclassOf
      (PyError.cryptoNewsError "HTTP 500: Internal Server Error").classOf
      ExnClass.paymentRequiredError = false := by
  have h := c5_generic_api_error none 500 "Internal Server Error" none none
    (by decide) (by decide)
  exact ⟨h.1.trans rfl, h.2.2.1⟩

/-- C8: a 2xx response whose body json.loads cannot decode always makes
the request raise, with an exception class outside the CryptoNewsError
hierarchy (hence distinct from the PaymentRequired, RateLimitExceeded
and ApiError conditions); a network-level URLError propagates unchanged,
also outside that hierarchy; neither is ever a silently returned value. -/
theorem c8_transport_and_decode_failures (last : Option RateLimit)
    (resp : SuccessResponse) (msg : String) (hbody : resp.bodyJson = none) :
    isRaised (requestCore last (.success resp)).2 = true ∧
    (∀ e : PyError, (requestCore last (.success resp)).2 = .error e →
      ExnClass.isSubclassOf e.classOf ExnClass.cryptoNewsError = false) ∧
    (requestCore last (.urlError msg)).2 = .error (.urlError msg) ∧
    ExnClass.isSubclassOf ExnClass.urlError ExnClass.cryptoNewsError = false := by
  refine ⟨?_, ?_, rfl, by decide⟩
  · simp only [requestCore]
    by_cases hc : (truthyStr resp.xRateLimitRemaining &&
        truthyStr resp.xRateLimitLimit) = true
    · simp only [hc, if_true]
      cases hb : buildRateLimit (resp.xRateLimitRemaining.getD "")
          (resp.xRateLimitLimit.getD "") resp.xRateLimitReset <;>
        simp [hb, hbody, isRaised]
    · simp [hc, hbody, isRaised]
  · intro e he
    simp only [requestCore] at he
    by_cases hc : (truthyStr resp.xRateLimitRemaining &&
        truthyStr resp.xRateLimitLimit) = true
    · simp only [hc, if_true] at he
      cases hb : buildRateLimit (resp.xRateLimitRemaining.getD "")
          (resp.xRateLimitLimit.getD "") resp.xRateLimitReset with
      | error e2 =>
        rw [hb] at he
        simp at he
        rw [← he]
        rw [buildRateLimit_error_class _ _ _ _ hb]
        decide
      | ok rl =>
        rw [hb] at he
        simp [hbody] at he
        rw [← he]
        decide
    · simp [hc, hbody] at he
      rw [← he]
      decide

/-- Witness for C8: an empty-header 200 response with an undecodable
body raises, and a connection-refused URLError propagates as itself. -/
theorem c8_witness :
    isRaised (requestCore none (.success ⟨none, none, none, none⟩)).2 = true ∧
    (requestCore none (.urlError "connection refused")).2 =
      .error (.urlError "connection refused") :=
  ⟨(c8_transport_and_decode_failures none ⟨none, none, none, none⟩
      "connection refused" rfl).1,
   (c8_transport_and_decode_failures none ⟨none, none, none, none⟩
      "connection refused" rfl).2.2.1⟩

/-- C9 counterexample: a 200 response with valid rate-limit headers and
an undecodable body fails the request, yet the snapshot has been updated
from None to the parsed values before json.loads raised. -/
theorem c9_counterexample :
    (requestCore none (.success ⟨some "5", some "10", none, none⟩)).1 =
      some { remaining := 5, limit := 10, reset_at := none } ∧
    isRaised (requestCore none (.success ⟨some "5", some "10", none, none⟩)).2 =
      true :=
  ⟨rfl, rfl⟩

/-- C9 amended: the snapshot is left exactly as it was on every HTTP
error (402, 429 and every other status), on every network-level failure,
and on a 2xx response whose rate-limit headers fail int() conversion; but
a 2xx response with truthy, convertible rate-limit headers and an
undecodable body updates the snapshot and then fails with
JSONDecodeError. -/
theorem c9_snapshot_on_failure (c : CryptoNews) (endpoint : String)
    (payment : Option String) (transport : Call → TransportResult)
    (code : Nat) (reason : String) (pr rs : Option String) (msg : String) :
    (transport (mkCall c endpoint payment) = .httpError code reason pr rs →
      (c.requestOp endpoint payment transport).2.1 = c.last_rate_limit) ∧
    (transport (mkCall c endpoint payment) = .urlError msg →
      (c.requestOp endpoint payment transport).2.1 = c.last_rate_limit) ∧
    (∀ resp : SuccessResponse, ∀ e : PyError,
      transport (mkCall c endpoint payment) = .success resp →
      truthyStr resp.xRateLimitRemaining = true →
      truthyStr resp.xRateLimitLimit = true →
      buildRateLimit (resp.xRateLimitRemaining.getD "")
          (resp.xRateLimitLimit.getD "") resp.xRateLimitReset = .error e →
      (c.requestOp endpoint payment transport).2.1 = c.last_rate_limit) ∧
    (∀ resp : SuccessResponse, ∀ rl : RateLimit,
      transport (mkCall c endpoint payment) = .success resp →
      resp.bodyJson = none →
      truthyStr resp.xRateLimitRemaining = true →
      truthyStr resp.xRateLimitLimit = true →
      buildRateLimit (resp.xRateLimitRemaining.getD "")
          (resp.xRateLimitLimit.getD "") resp.xRateLimitReset = .ok rl →
      (c.requestOp endpoint payment transport).2 =
        (some rl, .error PyError.jsonDecodeError)) := by
  refine ⟨?_, ?_, ?_, ?_⟩
  · intro h
    simp only [CryptoNews.requestOp, h]
    exact requestCore_httpError_fst c.last_rate_limit code reason pr rs
  · intro h
    simp [CryptoNews.requestOp, h, requestCore]
  · intro resp e h h1 h2 h3
    simp [CryptoNews.requestOp, h, requestCore, h1, h2, h3]
  · intro resp rl h hbody h1 h2 h3
    simp [CryptoNews.requestOp, h, requestCore, h1, h2, h3, hbody]

/-- Witness for C9: a 429 response carrying a reset header leaves the
snapshot of the client unchanged. -/
theorem c9_witness :
    ((mkCryptoNews none none 30).requestOp "/api/news?limit=10" none
        (fun _ => .httpError 429 "Too Many Requests" none
          (some "1700000000"))).2.1 = none :=
  (c9_snapshot_on_failure (mkCryptoNews none none 30) "/api/news?limit=10"
      none
      (fun _ => .httpError 429 "Too Many Requests" none (some "1700000000"))
      429 "Too Many Requests" none (some "1700000000") "unused").1 rfl

/-- C10: a client whose stored API key is the empty string behaves
exactly as one with no key configured: the headers carry no X-API-Key
entry and coincide with the keyless headers, every request is
indistinguishable from the keyless one, get_usage fails with the
key-required CryptoNewsError and zero transport calls, and
set_api_key of the empty string produces exactly such a client. -/
theorem c10_empty_key_like_no_key (c : CryptoNews) (endpoint : String)
    (payment : Option String) (transport : Call → TransportResult)
    (h : c.api_key = some "") :
    headersFor c payment = headersFor { c with api_key := none } payment ∧
    (∀ p ∈ headersFor c payment, p.1 ≠ "X-API-Key") ∧
    c.requestOp endpoint payment transport =
      CryptoNews.requestOp { c with api_key := none } endpoint payment transport ∧
    c.get_usage transport =
      ([], c.last_rate_limit,
        .error (.cryptoNewsError "API key required. Call set_api_key() first.")) ∧
    (c.set_api_key "").api_key = some "" := by
  have hh : headersFor c payment = headersFor { c with api_key := none } payment := by
    simp [headersFor, h]
  refine ⟨hh, ?_, ?_, ?_, rfl⟩
  · intro p hp
    rw [hh] at hp
    unfold headersFor at hp
    rcases payment with _ | pstr
    · simp at hp
      rcases hp with h1 | h1 <;> simp [h1]
    · by_cases hps : pstr = ""
      · simp [hps] at hp
        rcases hp with h1 | h1 <;> simp [h1]
      · simp [hps] at hp
        rcases hp with h1 | h1 | h1 <;> simp [h1]
  · simp [CryptoNews.requestOp, mkCall, hh]
  · simp [CryptoNews.get_usage, truthyStr, h]

/-- Witness for C10: a client constructed with the empty string as its
key; get_usage issues no call and raises the key-required error. -/
theorem c10_witness :
    (mkCryptoNews none (some "") 30).get_usage (fun _ => .urlError "unused") =
      ([], none,
        .error (.cryptoNewsError "API key required. Call set_api_key() first.")) :=
  (c10_empty_key_like_no_key (mkCryptoNews none (some "") 30) "/api/v1/usage"
      none (fun _ => .urlError "unused") rfl).2.2.2.1

/-- C6: on a 2xx response whose decoded body is v, for every client
(keyed or keyless) the wrapped read operations return the body
subscripted by their envelope field (get_latest, search, get_defi,
get_bitcoin, get_breaking by articles; get_sources by sources) and every
other read operation returns the full decoded body unchanged; for
get_usage this is stated under a truthy configured key, the precondition
for it to issue a request at all. -/
theorem c6_envelope_projection (c : CryptoNews) (v : JVal)
    (transport : Call → TransportResult)
    (ht : ∀ call, transport call = .success ⟨none, none, none, some v⟩)
    (limit hours page per_page days : Int)
    (source topic sentiment date query category ids payment : Option String)
    (keywords order coin_id format : String) (coins : List String)
    (include_prices : Bool) :
    (c.get_latest limit source transport).2.2 = getItem v "articles" ∧
    (c.search keywords limit transport).2.2 = getItem v "articles" ∧
    (c.get_defi limit transport).2.2 = getItem v "articles" ∧
    (c.get_bitcoin limit transport).2.2 = getItem v "articles" ∧
    (c.get_breaking limit transport).2.2 = getItem v "articles" ∧
    (c.get_sources transport).2.2 = getItem v "sources" ∧
    (c.get_trending limit hours transport).2.2 = .ok v ∧
    (c.get_stats transport).2.2 = .ok v ∧
    (c.get_health transport).2.2 = .ok v ∧
    (c.analyze limit topic sentiment transport).2.2 = .ok v ∧
    (c.get_archive date query limit transport).2.2 = .ok v ∧
    (c.get_origins query category limit transport).2.2 = .ok v ∧
    (c.get_portfolio coins limit include_prices transport).2.2 = .ok v ∧
    (truthyStr c.api_key = true → (c.get_usage transport).2.2 = .ok v) ∧
    (c.get_premium_coin coin_id payment transport).2.2 = .ok v ∧
    (c.get_premium_coins page per_page order ids payment transport).2.2 = .ok v ∧
    (c.get_historical coin_id days payment transport).2.2 = .ok v ∧
    (c.export_data coin_id format days payment transport).2.2 = .ok v := by
  refine ⟨?_, ?_, ?_, ?_, ?_, ?_, ?_, ?_, ?_, ?_, ?_, ?_, ?_, ?_, ?_, ?_, ?_, ?_⟩
  case refine_14 =>
    intro hk
    unfold CryptoNews.get_usage
    rw [hk]
    simp [CryptoNews.requestOp, requestCore, ht, truthyStr]
  all_goals
    simp [CryptoNews.get_latest, CryptoNews.search, CryptoNews.get_defi,
      CryptoNews.get_bitcoin, CryptoNews.get_breaking, CryptoNews.get_sources,
      CryptoNews.get_trending, CryptoNews.get_stats, CryptoNews.get_health,
      CryptoNews.analyze, CryptoNews.get_archive, CryptoNews.get_origins,
      CryptoNews.get_portfolio, CryptoNews.get_premium_coin,
      CryptoNews.get_premium_coins, CryptoNews.get_historical,
      CryptoNews.export_data, CryptoNews.requestOp, withField, requestCore,
      ht, truthyStr, Except.bind]

/-- Witness for C6: the documented example, a 200 body holding one
article titled A; get_latest returns the unwrapped article list. -/
theorem c6_witness :
    ((mkCryptoNews none none 30).get_latest 10 none
        (fun _ => .success ⟨none, none, none,
          some (.obj [("articles", .arr [.obj [("title", .str "A")]])])⟩)).2.2 =
      .ok (.arr [.obj [("title", .str "A")]]) := by
  have h := c6_envelope_projection (mkCryptoNews none none 30)
    (.obj [("articles", .arr [.obj [("title", .str "A")]])])
    (fun _ => .success ⟨none, none, none,
      some (.obj [("articles", .arr [.obj [("title", .str "A")]])])⟩)
    (fun _ => rfl) 10 24 1 100 30 none none none none none none none none
    "btc" "market_cap_desc" "bitcoin" "json" [] true
  exact h.1.trans rfl

theorem intercalate_amp_two (a b : String) :
    String.intercalate "&" [a, b] = a ++ "&" ++ b := rfl

theorem intercalate_amp_three (a b c : String) :
    String.intercalate "&" [a, b, c] = a ++ "&" ++ b ++ "&" ++ c := rfl

theorem intercalate_amp_one (a : String) :
    String.intercalate "&" [a] = a := rfl

theorem intercalate_amp_four (a b c d : String) :
    String.intercalate "&" [a, b, c, d] =
      a ++ "&" ++ b ++ "&" ++ c ++ "&" ++ d := rfl

/-- C7: every endpoint the client builds equals the documented section 6
template, with percent-encoding applied exactly to the free-text
parameters (search keywords, analyze topic, archive and origins query
strings, premium ids, and the comma-joined portfolio coins list) and to
nothing else; for endpoints with optional parameters the conjuncts also
record the template with those parameters omitted. -/
theorem c7_url_templates (limit hours page per_page days : Int)
    (source topic sentiment date q category ids keywords order coin_id format :
      String)
    (coins : List String) (prices : Bool)
    (hsource : source ≠ "") (htopic : topic ≠ "") (hsent : sentiment ≠ "")
    (hdate : date ≠ "") (hq : q ≠ "") (hcat : category ≠ "") (hids : ids ≠ "") :
    endpoint_get_latest limit (some source) = specTemplate_news limit source ∧
    endpoint_get_latest limit none = "/api/news?limit=" ++ toString limit ∧
    endpoint_search keywords limit = specTemplate_search keywords limit ∧
    endpoint_get_defi limit = specTemplate_defi limit ∧
    endpoint_get_bitcoin limit = specTemplate_bitcoin limit ∧
    endpoint_get_breaking limit = specTemplate_breaking limit ∧
    endpoint_get_trending limit hours = specTemplate_trending limit hours ∧
    endpoint_analyze limit (some topic) (some sentiment) =
      specTemplate_analyze limit topic sentiment ∧
    endpoint_analyze limit none none = "/api/analyze?limit=" ++ toString limit ∧
    endpoint_get_archive (some date) (some q) limit =
      specTemplate_archive limit date q ∧
    endpoint_get_archive none none limit =
      "/api/archive?limit=" ++ toString limit ∧
    endpoint_get_origins (some q) (some category) limit =
      specTemplate_origins limit q category ∧
    endpoint_get_origins none none limit =
      "/api/origins?limit=" ++ toString limit ∧
    endpoint_get_portfolio coins limit prices =
      specTemplate_portfolio coins limit prices ∧
    endpoint_get_premium_coin coin_id = specTemplate_premium_coin coin_id ∧
    endpoint_get_premium_coins page per_page order (some ids) =
      specTemplate_premium_coins page per_page order ids ∧
    endpoint_get_premium_coins page per_page order none =
      "/api/v1/coins?page=" ++ toString page ++ "&per_page=" ++
        toString per_page ++ "&order=" ++ order ∧
    endpoint_get_historical coin_id days = specTemplate_historical coin_id days ∧
    endpoint_export_data coin_id format days =
      specTemplate_export coin_id format days := by
  have hS : truthyStr (some source) = true := by simp [truthyStr, hsource]
  have hT : truthyStr (some topic) = true := by simp [truthyStr, htopic]
  have hSe : truthyStr (some sentiment) = true := by simp [truthyStr, hsent]
  have hD : truthyStr (some date) = true := by simp [truthyStr, hdate]
  have hQ : truthyStr (some q) = true := by simp [truthyStr, hq]
  have hC : truthyStr (some category) = true := by simp [truthyStr, hcat]
  have hI : truthyStr (some ids) = true := by simp [truthyStr, hids]
  have hN : truthyStr none = false := rfl
  refine ⟨?_, ?_, ?_, ?_, ?_, ?_, ?_, ?_, ?_, ?_, ?_, ?_, ?_, ?_, ?_, ?_, ?_,
    ?_, ?_⟩
  all_goals
    simp only [endpoint_get_latest, endpoint_search, endpoint_get_defi,
      endpoint_get_bitcoin, endpoint_get_breaking, endpoint_get_trending,
      endpoint_analyze, endpoint_get_archive, endpoint_get_origins,
      endpoint_get_portfolio, endpoint_get_premium_coin,
      endpoint_get_premium_coins, endpoint_get_historical,
      endpoint_export_data, specTemplate_news, specTemplate_search,
      specTemplate_defi, specTemplate_bitcoin, specTemplate_breaking,
      specTemplate_trending, specTemplate_analyze, specTemplate_archive,
      specTemplate_origins, specTemplate_portfolio,
      specTemplate_premium_coin, specTemplate_premium_coins,
      specTemplate_historical, specTemplate_export, hS, hT, hSe, hD, hQ, hC,
      hI, hN, if_true, if_false, Option.getD_some, List.cons_append,
      List.nil_append, intercalate_amp_one, intercalate_amp_two,
      intercalate_amp_three, intercalate_amp_four, str_append_assoc,
      Bool.false_eq_true, ite_false,
      ite_true, String.append_empty, String.empty_append]
  all_goals rfl

/-- Witness for C7: concrete search keywords containing a space; the
built endpoint matches the spec template and renders with the space
percent-encoded as expected. -/
theorem c7_witness :
    endpoint_search "btc etf" 10 = specTemplate_search "btc etf" 10 ∧
    endpoint_search "btc etf" 10 = "/api/search?q=btc%20etf&limit=10" := by
  have h := c7_url_templates 10 24 1 100 30 "coindesk" "defi" "bullish"
    "2024-01-01" "bitcoin" "research" "btc,eth" "btc etf" "market_cap_desc"
    "bitcoin" "json" ["btc", "eth"] true (by decide) (by decide) (by decide)
    (by decide) (by decide) (by decide) (by decide)
  exact ⟨h.2.2.1, by rfl⟩
